import Mathlib

/-!
Shallow embedding of the PIC12F675 + HC4040 frequency-meter firmware
(src/main.c) and verification of its specification claims.

The firmware has three parts:
* freq_init (src lines 98-139): derives the timer reload constant from the
  three configuration macros and arms TMR0, or enters a permanent fault
  loop when the prescaler macro is not a supported value;
* isr (src lines 84-95): the TMR0 overflow handler that reloads the timer,
  toggles the CNTR_CLK gate-enable line and, when the gate line reads high
  after the toggle, pulses the CNTR_MR reset line high then low;
* the foreground loop body (src lines 146-152): compiled only when
  BTN_PORT is defined, it samples the active-low range button and selects
  either the nominal reload constant or ten times it.

Machine integers are modelled as Nat with explicit reductions: 32-bit
unsigned arithmetic as mod 4294967296, the 16-bit variable cyc as
mod 65536, and the 8-bit char variables as values in 0..255.
-/

namespace FreqMeter

/-- Modelled machine state: the TMR0 flag and enable bits, the timer
register, the two 8-bit globals tmr_pr and tmr_prx1 (src lines 80-81),
the CNTR_CLK gate-enable and CNTR_MR reset output levels, the 10x LED
level, and the OPTION_REG prescaler selector bits. -/
structure MState where
  t0if : Bool
  t0ie : Bool
  tmr0 : Nat
  tmr_pr : Nat
  tmr_prx1 : Nat
  clk : Bool
  mr : Bool
  led : Bool
  psBits : Nat
deriving DecidableEq, Repr

/-- State at MCU reset: the C globals are zero-initialised (tmr_pr is
written as 0x00 at src line 80, tmr_prx1 has static storage), TMR0 is not
armed, and the output latches are modelled as cleared. -/
def resetState : MState :=
  { t0if := false
    t0ie := false
    tmr0 := 0
    tmr_pr := 0
    tmr_prx1 := 0
    clk := false
    mr := false
    led := false
    psBits := 0 }

/-- Modulus of 32-bit unsigned arithmetic. -/
def UINT32_MOD : Nat := 4294967296

/-- Modulus of the 16-bit variable cyc. -/
def UINT16_MOD : Nat := 65536

/-- Source line 101: cyc = (uint32_t)(F_CLK/1000000ul/4) * (1000ul << 11)
/ (F_MSB/1000ul). The expression is evaluated in 32-bit unsigned
arithmetic (1000ul << 11 = 1000 * 2048 = 2048000) and the result is
stored into the 16-bit variable cyc. -/
def cyc (fclk fmsb : Nat) : Nat :=
  (fclk % UINT32_MOD / 1000000 / 4 * (1000 * 2048) % UINT32_MOD
    / (fmsb % UINT32_MOD / 1000)) % UINT16_MOD

/-- Storage of the int value -(q) into an 8-bit char (src lines 124-131
store -(cyc/N) into tmr_prx1): two's-complement reduction modulo 256,
represented as the value in 0..255. -/
def neg8 (q : Nat) : Nat := (256 - q % 256) % 256

/-- Tail of a successful freq_init case: set the OPTION_REG prescaler
selector bits and tmr_prx1 = -(cyc/N) (src lines 124-131), copy
tmr_pr = tmr_prx1 (line 134), clear T0IF and set T0IE (lines 136-137). -/
def arm (s : MState) (bits q : Nat) : MState :=
  { s with
    psBits := bits
    tmr_prx1 := neg8 q
    tmr_pr := neg8 q
    t0if := false
    t0ie := true }

/-- Result of freq_init: faulted is true when the switch default branch
entered the permanent while(1) loop (src line 132), in which case st is
the machine state at that point, frozen forever since the loop performs
no further work; otherwise st is the state after initialisation. -/
structure InitResult where
  faulted : Bool
  st : MState
deriving DecidableEq, Repr

/-- Shallow embedding of freq_init (src lines 98-139): compute cyc, drive
CNTR_CLK low and CNTR_MR high (line 109), then switch on the prescaler
macro; a supported prescaler selects its OPTION_REG code and the reload
constant -(cyc/prescaler), an unsupported one enters the fault loop. -/
def freq_init (fclk fmsb ps : Nat) : InitResult :=
  let c := cyc fclk fmsb
  let s0 := { resetState with clk := false, mr := true }
  if ps = 256 then ⟨false, arm s0 7 (c / 256)⟩
  else if ps = 128 then ⟨false, arm s0 6 (c / 128)⟩
  else if ps = 64 then ⟨false, arm s0 5 (c / 64)⟩
  else if ps = 32 then ⟨false, arm s0 4 (c / 32)⟩
  else if ps = 16 then ⟨false, arm s0 3 (c / 16)⟩
  else if ps = 8 then ⟨false, arm s0 2 (c / 8)⟩
  else if ps = 4 then ⟨false, arm s0 1 (c / 4)⟩
  else if ps = 2 then ⟨false, arm s0 0 (c / 2)⟩
  else ⟨true, s0⟩

/-- Shallow embedding of the TMR0 interrupt handler (src lines 84-95):
clear T0IF, reload TMR0 from tmr_pr, flip the CNTR_CLK output, and if the
gate line reads high after the flip, pulse CNTR_MR high then low. The
second component records the sequence of levels written to CNTR_MR during
the invocation: IO_SET then IO_CLR when the pulse fires, nothing
otherwise. -/
def isr (s : MState) : MState × List Bool :=
  let s1 := { s with t0if := false, tmr0 := s.tmr_pr, clk := !s.clk }
  if s1.clk then ({ s1 with mr := false }, [true, false]) else (s1, [])

/-- Build-time flag for the range-select feature: the BTN_PORT define at
src line 71 is commented out in the shipped source. -/
def BTN_PORT_defined : Bool := false

/-- One iteration of the foreground loop body (src lines 146-152).
btnDefined is the compile-time BTN_PORT flag guarding the whole body;
btn is the sampled level of the active-low BTN_PIN. When the body is
compiled in and the button reads 0, tmr_pr is set to 10 * tmr_prx1
(stored back into the 8-bit tmr_pr, hence mod 256) and the LED is set;
otherwise tmr_pr is set to tmr_prx1 and the LED is cleared. -/
def loopIter (btnDefined : Bool) (btn : Bool) (s : MState) : MState :=
  if btnDefined then
    if btn = false then { s with tmr_pr := 10 * s.tmr_prx1 % 256, led := true }
    else { s with tmr_pr := s.tmr_prx1, led := false }
  else s

/-- Prescaler values accepted by the switch in freq_init (src lines
123-131). -/
def validPS (ps : Nat) : Bool :=
  ps == 256 || ps == 128 || ps == 64 || ps == 32 ||
  ps == 16 || ps == 8 || ps == 4 || ps == 2

/-- OPTION_REG prescaler selector code assigned for each supported
prescaler (src lines 124-131). -/
def psBits (ps : Nat) : Nat :=
  if ps = 256 then 7 else if ps = 128 then 6 else if ps = 64 then 5
  else if ps = 32 then 4 else if ps = 16 then 3 else if ps = 8 then 2
  else if ps = 4 then 1 else 0

/-- Cycle-count formula of spec section 4.1 (also the source's own
configuration comment, src line 40), read over the naturals:
(oscillatorFreq / 1000000 / 4) * (1000 * 2048) / (fullScaleFreq / 1000). -/
def specCycles (fclk fmsb : Nat) : Nat :=
  fclk / 1000000 / 4 * (1000 * 2048) / (fmsb / 1000)

/-- Legality predicate on a configuration triple, from spec section 4.1
together with the data-model constraints of spec section 3 and the
source's configuration comment (src lines 36-40): the parameters are
32-bit constants, F_CLK is at least 4 MHz and a whole number of MHz,
F_MSB is at least 1 kHz (so the formula's divisor is nonzero), every
division in the cycles formula is exact (no truncation), the prescaler is
a supported value dividing cycles, and cycles/prescaler is at most 25. -/
def Legal (fclk fmsb ps : Nat) : Prop :=
  fclk < UINT32_MOD ∧ fmsb < UINT32_MOD ∧
  4000000 ≤ fclk ∧ 1000 ≤ fmsb ∧
  validPS ps = true ∧
  1000000 ∣ fclk ∧ 4 ∣ fclk / 1000000 ∧ 1000 ∣ fmsb ∧
  fmsb / 1000 ∣ fclk / 1000000 / 4 * (1000 * 2048) ∧
  ps ∣ specCycles fclk fmsb ∧
  specCycles fclk fmsb / ps ≤ 25

instance (fclk fmsb ps : Nat) : Decidable (Legal fclk fmsb ps) := by
  unfold Legal
  infer_instance

/-- Number of prescaled ticks until TMR0, preloaded with p in 0..255,
overflows: the timer counts up and wraps at 256. -/
def ticksToOverflow (p : Nat) : Nat := 256 - p

/-- Enumeration of the prescaler values accepted by the switch. -/
theorem validPS_cases (ps : Nat) (h : validPS ps = true) :
    ps = 256 ∨ ps = 128 ∨ ps = 64 ∨ ps = 32 ∨
    ps = 16 ∨ ps = 8 ∨ ps = 4 ∨ ps = 2 := by
  simp [validPS] at h
  tauto

/-- Supported prescalers lie between 2 and 256. -/
theorem validPS_le (ps : Nat) (h : validPS ps = true) : 2 ≤ ps ∧ ps ≤ 256 := by
  rcases validPS_cases ps h with rfl | rfl | rfl | rfl | rfl | rfl | rfl | rfl <;> omega

/-- On a supported prescaler, freq_init selects the matching switch case:
no fault, and the armed state carries -(cyc/prescaler). -/
theorem freq_init_valid (fclk fmsb ps : Nat) (h : validPS ps = true) :
    freq_init fclk fmsb ps =
      ⟨false, arm { resetState with clk := false, mr := true }
        (psBits ps) (cyc fclk fmsb / ps)⟩ := by
  rcases validPS_cases ps h with rfl | rfl | rfl | rfl | rfl | rfl | rfl | rfl <;> rfl

/-- On an unsupported prescaler, freq_init reaches the switch default and
enters the fault loop with CNTR_CLK low, CNTR_MR high and T0IE clear. -/
theorem freq_init_invalid (fclk fmsb ps : Nat) (h : validPS ps = false) :
    freq_init fclk fmsb ps = ⟨true, { resetState with clk := false, mr := true }⟩ := by
  have hne : ¬ps = 256 ∧ ¬ps = 128 ∧ ¬ps = 64 ∧ ¬ps = 32 ∧
      ¬ps = 16 ∧ ¬ps = 8 ∧ ¬ps = 4 ∧ ¬ps = 2 := by
    simp [validPS] at h
    tauto
  obtain ⟨h1, h2, h3, h4, h5, h6, h7, h8⟩ := hne
  simp [freq_init, h1, h2, h3, h4, h5, h6, h7, h8]

/-- Under a legal configuration none of the reductions in the C
expression for cyc truncate: the value stored in the 16-bit variable cyc
equals the mathematical cycle count of the spec formula. -/
theorem legal_cyc_eq (fclk fmsb ps : Nat) (h : Legal fclk fmsb ps) :
    cyc fclk fmsb = specCycles fclk fmsb := by
  obtain ⟨h32, hm32, h4M, h1k, hps, hd1, hd2, hd3, hdB, hdps, hq⟩ := h
  have h32n : fclk < 4294967296 := h32
  have hm32n : fmsb < 4294967296 := hm32
  have hle : ps ≤ 256 := (validPS_le ps hps).2
  have hspec : specCycles fclk fmsb = specCycles fclk fmsb / ps * ps :=
    (Nat.div_mul_cancel hdps).symm
  have hspec_le : specCycles fclk fmsb ≤ 25 * 256 := by
    rw [hspec]
    exact Nat.mul_le_mul hq hle
  have hA : fclk / 1000000 / 4 * (1000 * 2048) < 4294967296 := by omega
  show (fclk % UINT32_MOD / 1000000 / 4 * (1000 * 2048) % UINT32_MOD
    / (fmsb % UINT32_MOD / 1000)) % UINT16_MOD = specCycles fclk fmsb
  rw [show UINT32_MOD = 4294967296 from rfl, show UINT16_MOD = 65536 from rfl]
  rw [Nat.mod_eq_of_lt h32n, Nat.mod_eq_of_lt hm32n, Nat.mod_eq_of_lt hA]
  rw [show fclk / 1000000 / 4 * (1000 * 2048) / (fmsb / 1000) = specCycles fclk fmsb from rfl]
  exact Nat.mod_eq_of_lt (by omega)

/-- Under a legal configuration the quotient cycles/prescaler is at least
one: the oscillator is at least 4 MHz, so the numerator of the spec
formula is positive, and the divisibility conditions then force a
positive quotient. -/
theorem legal_q_pos (fclk fmsb ps : Nat) (h : Legal fclk fmsb ps) :
    1 ≤ specCycles fclk fmsb / ps := by
  obtain ⟨h32, hm32, h4M, h1k, hps, hd1, hd2, hd3, hdB, hdps, hq⟩ := h
  have hA1 : 1 ≤ fclk / 1000000 / 4 := by omega
  have hc : specCycles fclk fmsb * (fmsb / 1000) = fclk / 1000000 / 4 * (1000 * 2048) :=
    Nat.div_mul_cancel hdB
  have hpos : 0 < specCycles fclk fmsb := by
    rcases Nat.eq_zero_or_pos (specCycles fclk fmsb) with h0 | hp
    · rw [h0, Nat.zero_mul] at hc
      omega
    · exact hp
  have hle : ps ≤ specCycles fclk fmsb := Nat.le_of_dvd hpos hdps
  have hps2 : 2 ≤ ps := (validPS_le ps hps).1
  exact (Nat.one_le_div_iff (by omega)).mpr hle

/-- Under a legal configuration freq_init arms the timer and both tmr_prx1
and tmr_pr hold the 8-bit two's-complement value 256 - cycles/prescaler. -/
theorem legal_reload (fclk fmsb ps : Nat) (h : Legal fclk fmsb ps) :
    (freq_init fclk fmsb ps).faulted = false ∧
    (freq_init fclk fmsb ps).st.tmr_prx1 = 256 - specCycles fclk fmsb / ps ∧
    (freq_init fclk fmsb ps).st.tmr_pr = 256 - specCycles fclk fmsb / ps ∧
    (freq_init fclk fmsb ps).st.t0ie = true := by
  have hq1 := legal_q_pos fclk fmsb ps h
  have hcyc := legal_cyc_eq fclk fmsb ps h
  obtain ⟨h32, hm32, h4M, h1k, hps, hd1, hd2, hd3, hdB, hdps, hq⟩ := h
  rw [freq_init_valid fclk fmsb ps hps]
  refine ⟨rfl, ?_, ?_, rfl⟩ <;>
    · show neg8 (cyc fclk fmsb / ps) = _
      rw [hcyc]
      show (256 - specCycles fclk fmsb / ps % 256) % 256 = _
      omega

/-- C1 (counterexample): the configuration (20 MHz, 6.4 MHz, prescaler 2)
violates the section 4.1 legality predicate — cycles/prescaler = 800,
far above 25 — yet freq_init does not reject it: it reaches no fault
loop, enables the timer interrupt and produces the reload constant 224.
The resolver checks only the prescaler value, never the cycles bound. -/
theorem spec_C1_counterexample :
    validPS 2 = true ∧
    specCycles 20000000 6400000 / 2 = 800 ∧
    ¬(specCycles 20000000 6400000 / 2 ≤ 25) ∧
    (freq_init 20000000 6400000 2).faulted = false ∧
    (freq_init 20000000 6400000 2).st.t0ie = true ∧
    (freq_init 20000000 6400000 2).st.tmr_prx1 = 224 := by
  decide

/-- C1 (amended): freq_init enters the permanent fault loop exactly when
the prescaler is not one of the eight supported values 2..256; the other
legality conditions of section 4.1 (integral cycles, divisibility by the
prescaler, quotient at most 25) are documented preconditions on the user
and are never checked, so a triple violating them with a supported
prescaler still yields a reload constant. -/
theorem spec_C1 (fclk fmsb ps : Nat) :
    (freq_init fclk fmsb ps).faulted = !validPS ps := by
  cases h : validPS ps
  · rw [freq_init_invalid fclk fmsb ps h]
    rfl
  · rw [freq_init_valid fclk fmsb ps h]
    rfl

/-- C2: on every timer-expiry invocation, the interrupt handler emits a
reset pulse on CNTR_MR exactly when the gate-enable line reads high (the
counting level) after the toggle, i.e. exactly on a CLOSED to OPEN gate
transition, and never on an OPEN to CLOSED transition. -/
theorem spec_C2 (s : MState) :
    ((isr s).2 = [true, false] ↔ s.clk = false) ∧
    ((isr s).2 = [] ↔ s.clk = true) ∧
    (isr s).1.clk = !s.clk ∧
    ((isr s).2 = [true, false] ↔ (isr s).1.clk = true) := by
  cases hc : s.clk <;> simp [isr, hc]

/-- C3: the resolver reproduces the documented example reload magnitudes:
(20 MHz, 6.4 MHz, 64) gives 25, (16 MHz, 6.4 MHz, 64) gives 20,
(12 MHz, 6.4 MHz, 64) gives 15, and (20 MHz, 3.2 MHz, 128) gives 25;
in each case the stored constant is the 8-bit negative of the magnitude
and the configuration is accepted. -/
theorem spec_C3 :
    (freq_init 20000000 6400000 64).st.tmr_prx1 = neg8 25 ∧
    ticksToOverflow (freq_init 20000000 6400000 64).st.tmr_prx1 = 25 ∧
    (freq_init 16000000 6400000 64).st.tmr_prx1 = neg8 20 ∧
    ticksToOverflow (freq_init 16000000 6400000 64).st.tmr_prx1 = 20 ∧
    (freq_init 12000000 6400000 64).st.tmr_prx1 = neg8 15 ∧
    ticksToOverflow (freq_init 12000000 6400000 64).st.tmr_prx1 = 15 ∧
    (freq_init 20000000 3200000 128).st.tmr_prx1 = neg8 25 ∧
    ticksToOverflow (freq_init 20000000 3200000 128).st.tmr_prx1 = 25 ∧
    (freq_init 20000000 6400000 64).faulted = false ∧
    (freq_init 16000000 6400000 64).faulted = false ∧
    (freq_init 12000000 6400000 64).faulted = false ∧
    (freq_init 20000000 3200000 128).faulted = false := by
  decide

/-- C4: for every legal configuration, the resolver accepts and stores as
reload constant the two's-complement negative of cycles/prescaler reduced
to 8 bits — its value agrees with -(cycles/prescaler) modulo 256, tmr_pr
is initialised to the same value, and the timer preloaded with it
overflows after exactly cycles/prescaler prescaled ticks. -/
theorem spec_C4 (fclk fmsb ps : Nat) (h : Legal fclk fmsb ps) :
    (freq_init fclk fmsb ps).faulted = false ∧
    ((freq_init fclk fmsb ps).st.tmr_prx1 : Int) % 256 =
      (-((specCycles fclk fmsb / ps : Nat) : Int)) % 256 ∧
    (freq_init fclk fmsb ps).st.tmr_pr = (freq_init fclk fmsb ps).st.tmr_prx1 ∧
    ticksToOverflow (freq_init fclk fmsb ps).st.tmr_prx1 =
      specCycles fclk fmsb / ps := by
  have hq1 := legal_q_pos fclk fmsb ps h
  have hq25 : specCycles fclk fmsb / ps ≤ 25 :=
    h.2.2.2.2.2.2.2.2.2.2
  obtain ⟨hf, hx1, hpr, _⟩ := legal_reload fclk fmsb ps h
  refine ⟨hf, ?_, by rw [hx1, hpr], ?_⟩
  · rw [hx1]
    omega
  · rw [hx1]
    show 256 - (256 - specCycles fclk fmsb / ps) = _
    omega

/-- C4 witness at the configuration compiled into the source,
(12 MHz, 6.4 MHz, prescaler 64). -/
theorem spec_C4_witness :
    Legal 12000000 6400000 64 ∧
    ((freq_init 12000000 6400000 64).faulted = false ∧
     ((freq_init 12000000 6400000 64).st.tmr_prx1 : Int) % 256 =
       (-((specCycles 12000000 6400000 / 64 : Nat) : Int)) % 256 ∧
     (freq_init 12000000 6400000 64).st.tmr_pr =
       (freq_init 12000000 6400000 64).st.tmr_prx1 ∧
     ticksToOverflow (freq_init 12000000 6400000 64).st.tmr_prx1 =
       specCycles 12000000 6400000 / 64) :=
  ⟨by decide, spec_C4 12000000 6400000 64 (by decide)⟩

/-- C5 (counterexample): in the shipped source the BTN_PORT define is
commented out, so the whole range-select branch is compiled out. At the
state produced by the compiled-in configuration (12 MHz, 6.4 MHz, 64),
a foreground-loop iteration with the control input reading 0 (asserted)
leaves tmr_pr at the nominal 241 and the status output clear, whereas
the claim requires tmr_pr = 10 * tmr_prx1 mod 256 = 106 and the status
output set. -/
theorem spec_C5_counterexample :
    BTN_PORT_defined = false ∧
    (loopIter BTN_PORT_defined false (freq_init 12000000 6400000 64).st).tmr_pr = 241 ∧
    (loopIter BTN_PORT_defined false (freq_init 12000000 6400000 64).st).led = false ∧
    10 * (freq_init 12000000 6400000 64).st.tmr_prx1 % 256 = 106 ∧
    (241 : Nat) ≠ 106 := by
  decide

/-- C5 (amended): in builds where BTN_PORT is defined, each
foreground-loop iteration samples the active-low control input: reading 0
sets tmr_pr to 10 * tmr_prx1 (reduced to 8 bits) and sets the status
output, reading 1 sets tmr_pr to the nominal tmr_prx1 and clears the
status output; in the shipped source BTN_PORT is commented out and the
iteration is the identity, sampling nothing. -/
theorem spec_C5 (s : MState) (btn : Bool) :
    loopIter true false s = { s with tmr_pr := 10 * s.tmr_prx1 % 256, led := true } ∧
    loopIter true true s = { s with tmr_pr := s.tmr_prx1, led := false } ∧
    loopIter false btn s = s :=
  ⟨rfl, rfl, rfl⟩

/-- C6: for an unsupported prescaler such as 3, freq_init reaches the
switch default and loops forever before T0IE is ever set: the timer is
never armed, and the two outputs stay at the levels driven during
initialisation — gate-enable low and reset high, their idle levels —
since the fault loop performs no further writes. -/
theorem spec_C6 (fclk fmsb ps : Nat) (h : validPS ps = false) :
    (freq_init fclk fmsb ps).faulted = true ∧
    (freq_init fclk fmsb ps).st.t0ie = false ∧
    (freq_init fclk fmsb ps).st.t0if = false ∧
    (freq_init fclk fmsb ps).st.clk = false ∧
    (freq_init fclk fmsb ps).st.mr = true := by
  rw [freq_init_invalid fclk fmsb ps h]
  exact ⟨rfl, rfl, rfl, rfl, rfl⟩

/-- C6 witness at the invalid prescaler 3 named by the claim. -/
theorem spec_C6_witness :
    validPS 3 = false ∧
    ((freq_init 12000000 6400000 3).faulted = true ∧
     (freq_init 12000000 6400000 3).st.t0ie = false ∧
     (freq_init 12000000 6400000 3).st.t0if = false ∧
     (freq_init 12000000 6400000 3).st.clk = false ∧
     (freq_init 12000000 6400000 3).st.mr = true) :=
  ⟨by decide, spec_C6 12000000 6400000 3 (by decide)⟩

/-- C7: on every invocation the interrupt handler clears T0IF and reloads
TMR0 with the tmr_pr value current at that invocation, leaving tmr_pr
itself unchanged; the interval to the next expiry is therefore the one
encoded by the reload value in effect when the phase began. -/
theorem spec_C7 (s : MState) :
    (isr s).1.t0if = false ∧
    (isr s).1.tmr0 = s.tmr_pr ∧
    (isr s).1.tmr_pr = s.tmr_pr ∧
    ticksToOverflow (isr s).1.tmr0 = ticksToOverflow s.tmr_pr := by
  cases hc : s.clk <;> simp [isr, hc]

/-- C8 (counterexample): with the compiled-in configuration, the reset
line is high right after initialisation, and the first timer expiry —
a CLOSED to OPEN transition — emits the pulse writes high-then-low and
returns with CNTR_MR low. That instant is outside any active reset
pulse, yet the line is low, refuting the claim that the line is high at
every point outside a pulse. -/
theorem spec_C8_counterexample :
    (freq_init 12000000 6400000 64).st.mr = true ∧
    (isr (freq_init 12000000 6400000 64).st).2 = [true, false] ∧
    (isr (freq_init 12000000 6400000 64).st).1.mr = false := by
  decide

/-- C8 (amended): the reset output is active-high and is written
high-then-low exactly once per CLOSED to OPEN transition, with no write
on an OPEN to CLOSED transition; it is driven high during initialisation,
but between pulses during operation it rests at its low level — each
pulse ends by returning the line low. -/
theorem spec_C8 (s : MState) :
    (isr s).2 = (if s.clk then [] else [true, false]) ∧
    (isr s).1.mr = (if s.clk then s.mr else false) ∧
    (freq_init 12000000 6400000 64).st.mr = true := by
  refine ⟨?_, ?_, by decide⟩ <;> cases hc : s.clk <;> simp [isr, hc]

/-- C9: for every legal configuration the reload magnitude is at most 25,
so ten times it stays below 256, and the extended-range store
tmr_pr = 10 * tmr_prx1, although it wraps the 8-bit range, equals
-(10 * magnitude) modulo 256; the timer preloaded with it overflows after
exactly ten times the nominal tick count. -/
theorem spec_C9 (fclk fmsb ps : Nat) (h : Legal fclk fmsb ps) :
    10 * (specCycles fclk fmsb / ps) ≤ 250 ∧
    (loopIter true false (freq_init fclk fmsb ps).st).tmr_pr =
      256 - 10 * (specCycles fclk fmsb / ps) ∧
    ((loopIter true false (freq_init fclk fmsb ps).st).tmr_pr : Int) % 256 =
      (-(10 * ((specCycles fclk fmsb / ps : Nat) : Int))) % 256 ∧
    ticksToOverflow (loopIter true false (freq_init fclk fmsb ps).st).tmr_pr =
      10 * (specCycles fclk fmsb / ps) := by
  have hq1 := legal_q_pos fclk fmsb ps h
  have hq25 : specCycles fclk fmsb / ps ≤ 25 :=
    h.2.2.2.2.2.2.2.2.2.2
  obtain ⟨hf, hx1, hpr, _⟩ := legal_reload fclk fmsb ps h
  have hloop : (loopIter true false (freq_init fclk fmsb ps).st).tmr_pr =
      10 * (freq_init fclk fmsb ps).st.tmr_prx1 % 256 := rfl
  rw [hloop, hx1]
  refine ⟨by omega, by omega, by omega, ?_⟩
  show 256 - 10 * (256 - specCycles fclk fmsb / ps) % 256 = _
  omega

/-- C9 witness at the configuration compiled into the source,
(12 MHz, 6.4 MHz, prescaler 64): magnitude 15, extended preload 106,
150 ticks. -/
theorem spec_C9_witness :
    Legal 12000000 6400000 64 ∧
    (10 * (specCycles 12000000 6400000 / 64) ≤ 250 ∧
     (loopIter true false (freq_init 12000000 6400000 64).st).tmr_pr =
       256 - 10 * (specCycles 12000000 6400000 / 64) ∧
     ((loopIter true false (freq_init 12000000 6400000 64).st).tmr_pr : Int) % 256 =
       (-(10 * ((specCycles 12000000 6400000 / 64 : Nat) : Int))) % 256 ∧
     ticksToOverflow (loopIter true false (freq_init 12000000 6400000 64).st).tmr_pr =
       10 * (specCycles 12000000 6400000 / 64)) :=
  ⟨by decide, spec_C9 12000000 6400000 64 (by decide)⟩

/-- C10: in the source as configured BTN_PORT is undefined, so the
foreground-loop body is the identity; freq_init establishes
tmr_pr = tmr_prx1 whether it faults or completes, and the interrupt
handler writes neither variable — the invariant tmr_pr = tmr_prx1 is
established at initialisation and preserved by every operation of the
program. -/
theorem spec_C10 (fclk fmsb ps : Nat) (s : MState) (btn : Bool) :
    BTN_PORT_defined = false ∧
    (freq_init fclk fmsb ps).st.tmr_pr = (freq_init fclk fmsb ps).st.tmr_prx1 ∧
    (isr s).1.tmr_pr = s.tmr_pr ∧
    (isr s).1.tmr_prx1 = s.tmr_prx1 ∧
    loopIter BTN_PORT_defined btn s = s := by
  refine ⟨rfl, ?_, ?_, ?_, rfl⟩
  · cases h : validPS ps
    · rw [freq_init_invalid fclk fmsb ps h]
      rfl
    · rw [freq_init_valid fclk fmsb ps h]
      rfl
  · cases hc : s.clk <;> simp [isr, hc]
  · cases hc : s.clk <;> simp [isr, hc]

end FreqMeter
